import Mathlib

/-!
Shallow embedding of `response.go` from the `grequests` package.

The Go file wraps a completed HTTP exchange in a `Response` structure and
offers accessors over its body stream: a raw read/close pass-through, lazy
buffering (`respBytesBuffer`, `Bytes`, `String`), structured decoding
(`Json`, `Xml`), streaming download (`DownloadToFile`) and explicit buffer
release (`ClearInternalBuffer`).

Modelling choices:
* Bytes are `Nat`; a body stream is its remaining unread bytes plus an
  optional read error that surfaces after those bytes are exhausted
  (`readErr = none` models a clean `io.EOF` end of stream, so `io.Copy`
  over the stream returns the bytes followed by `readErr`, matching Go's
  `io.Copy`, which never returns `io.EOF` itself).
* Go runtime panics (nil-pointer dereference, `bytes.Buffer.Grow` with a
  negative count) are modelled by the `Res` result type.
* `bytes.Buffer` is modelled by its unread contents: writing appends,
  `WriteTo`/draining empties it, `Bytes()` returns the contents without
  consuming them, `Reset` empties it.
* Go errors are strings; `Option String` is a possibly-nil `error` value.
* The external JSON/XML decoders are abstracted by a `DecodeOutcome`
  parameter (success, `io.EOF` with nothing decoded, or failure); the
  control flow around the decoder is translated from the source.
* `os.Create` is abstracted by an `Option String` parameter giving the
  filesystem's answer; the created file is modelled by its contents and a
  closed flag.
-/

namespace GRequests

/-- Result of running a Go method: a normal return value, or a runtime panic. -/
inductive Res (α : Type) where
  | ok (a : α)
  | panic (msg : String)
deriving DecidableEq

def Res.map {α β : Type} (f : α → β) : Res α → Res β
  | Res.ok a => Res.ok (f a)
  | Res.panic m => Res.panic m

/-- The Go runtime's message for dereferencing a nil pointer. -/
def nilDeref : String := "runtime error: invalid memory address or nil pointer dereference"

/-- A Go `error` message. (`Response.String`, named after the Go method it
embeds, shadows the name `String` for the declarations that follow it, so
they spell the type this way.) -/
abbrev ErrStr : Type := String

/-- An HTTP response body stream: the bytes still unread, the error (if any)
a read reports once the bytes run out (`none` = clean end of stream, io.EOF),
and whether `Close` has been called on it. -/
structure Body where
  data : List Nat
  readErr : Option String
  closed : Bool
deriving DecidableEq

/-- The fields of Go's `*http.Response` that `response.go` touches. -/
structure RawResp where
  StatusCode : Int
  Header : List (String × String)
  ContentLength : Int
  Body : Body
deriving DecidableEq

/-- A `bytes.Buffer`, modelled by its unread contents. -/
structure Buffer where
  data : List Nat
deriving DecidableEq

/-- The `Response` struct of `response.go`. `RawResponse = none` models a nil
`*http.Response` pointer, `internalByteBuffer = none` a nil `*bytes.Buffer`. -/
structure Response where
  Ok : Bool
  Error : Option String
  RawResponse : Option RawResp
  StatusCode : Int
  Header : List (String × String)
  internalByteBuffer : Option Buffer
deriving DecidableEq

/-- `buildResponse(resp *http.Response, err error) *Response`.
If `err` is non-nil it returns `&Response{Error: err}` (every other field
zero-valued). Otherwise it dereferences `resp` and sets
`Ok: resp.StatusCode <= 200 && resp.StatusCode < 300` — translated exactly
as written in the source, `<=` included. -/
def buildResponse (resp : Option RawResp) (err : Option String) : Res Response :=
  match err with
  | some e =>
      Res.ok { Ok := false, Error := some e, RawResponse := none,
               StatusCode := 0, Header := [], internalByteBuffer := none }
  | none =>
      match resp with
      | none => Res.panic nilDeref
      | some rr =>
          Res.ok { Ok := decide (rr.StatusCode ≤ 200) && decide (rr.StatusCode < 300),
                   Error := none, RawResponse := some rr,
                   StatusCode := rr.StatusCode, Header := rr.Header,
                   internalByteBuffer := none }

/-- `(r *Response) Close() error`: delegates unconditionally to
`r.RawResponse.Body.Close()`, so a nil `RawResponse` panics. A successful
close marks the body closed and returns a nil error. -/
def Response.Close (r : Response) : Res (Response × Option String) :=
  match r.RawResponse with
  | none => Res.panic nilDeref
  | some rr =>
      Res.ok ({ r with RawResponse := some { rr with Body := { rr.Body with closed := true } } }, none)

/-- `(r *Response) Read(p []byte)`: delegates unconditionally to
`r.RawResponse.Body.Read(p)`, so a nil `RawResponse` panics. Otherwise it
hands out up to `n` bytes of the body; once the bytes are exhausted it
reports the stream's terminal condition (`"EOF"` for a clean end). -/
def Response.Read (r : Response) (n : Nat) : Res (List Nat × Option String × Response) :=
  match r.RawResponse with
  | none => Res.panic nilDeref
  | some rr =>
      if rr.Body.data.isEmpty then
        Res.ok ([], some ((rr.Body.readErr).getD "EOF"), r)
      else
        Res.ok (rr.Body.data.take n, none,
          { r with RawResponse := some { rr with Body := { rr.Body with data := rr.Body.data.drop n } } })

/-- `(r *Response) respBytesBuffer() error`:
* If `internalByteBuffer` is non-nil, return nil immediately (nothing else
  happens).
* Otherwise: `defer r.Close()`; allocate a fresh buffer; call
  `Grow(int(r.RawResponse.ContentLength))` — a nil `RawResponse` panics
  here, and `bytes.Buffer.Grow` panics on a negative count; then
  `io.Copy(buf, r)` drains the body into the buffer (the buffer keeps the
  bytes copied before any error) and its error, filtered through
  `err != io.EOF`, is returned after the deferred close runs. In the
  stream model `io.Copy`'s error is exactly `readErr`, which is never the
  EOF sentinel, so the filter is the identity. -/
def Response.respBytesBuffer (r : Response) : Res (Response × Option String) :=
  match r.internalByteBuffer with
  | some _ => Res.ok (r, none)
  | none =>
      match r.RawResponse with
      | none => Res.panic nilDeref
      | some rr =>
          if rr.ContentLength < 0 then
            Res.panic "bytes.Buffer.Grow: negative count"
          else
            Res.ok ({ r with
                        internalByteBuffer := some { data := rr.Body.data },
                        RawResponse := some { rr with Body := { rr.Body with data := [], closed := true } } },
                    rr.Body.readErr)

/-- `(r *Response) Bytes() []byte`: calls `respBytesBuffer`; on error returns
nil (modelled `none`), otherwise `internalByteBuffer.Bytes()` — the buffer's
unread contents, not consumed. The final branch is unreachable on the ok
path (a successful buffering always leaves a buffer) but in Go a nil buffer
there would panic. -/
def Response.Bytes (r : Response) : Res (Response × Option (List Nat)) :=
  match r.respBytesBuffer with
  | Res.panic m => Res.panic m
  | Res.ok (r1, some _) => Res.ok (r1, none)
  | Res.ok (r1, none) =>
      match r1.internalByteBuffer with
      | some b => Res.ok (r1, some b.data)
      | none => Res.panic nilDeref

/-- `(r *Response) String() string`: calls `respBytesBuffer`; on error
returns `""` (the empty byte string), otherwise `internalByteBuffer.String()`
— the buffer's unread contents as text, not consumed. -/
def Response.String (r : Response) : Res (Response × List Nat) :=
  match r.respBytesBuffer with
  | Res.panic m => Res.panic m
  | Res.ok (r1, some _) => Res.ok (r1, [])
  | Res.ok (r1, none) =>
      match r1.internalByteBuffer with
      | some b => Res.ok (r1, b.data)
      | none => Res.panic nilDeref

/-- `(r *Response) ClearInternalBuffer()`: calls
`r.internalByteBuffer.Reset()` — a nil buffer pointer panics here — then
drops the reference (`r.internalByteBuffer = nil`). -/
def Response.ClearInternalBuffer (r : Response) : Res Response :=
  match r.internalByteBuffer with
  | none => Res.panic nilDeref
  | some _ => Res.ok { r with internalByteBuffer := none }

/-- The byte source chosen by `getInternalReader`. -/
inductive ByteSource where
  | buffered (b : Buffer)
  | raw
deriving DecidableEq

/-- `(r *Response) getInternalReader() io.Reader`: the internal buffer when
one exists, otherwise `r` itself (whose reads go to the raw stream). -/
def Response.getInternalReader (r : Response) : ByteSource :=
  match r.internalByteBuffer with
  | some b => ByteSource.buffered b
  | none => ByteSource.raw

/-- The destination file of `DownloadToFile`: its contents and whether it
has been closed. -/
structure File where
  data : List Nat
  closed : Bool
deriving DecidableEq

/-- `(r *Response) DownloadToFile(fileName string) error`.
`createErr` is the outcome of `os.Create` (the filesystem is external).
* Create fails: return that error; nothing was opened, nothing is closed.
* Create succeeds: `defer r.Close()`, `defer fd.Close()`, then
  `io.Copy(fd, r.getInternalReader())`; the copy error is filtered through
  `err != io.EOF` and returned after both deferred closes run (LIFO:
  `fd.Close()` then `r.Close()`).
* Copying from the internal buffer drains it (`bytes.Buffer` reads consume)
  and cannot fail; the deferred `r.Close()` still runs and panics when
  `RawResponse` is nil.
* Copying from the raw path reads through `r.Read`, which panics when
  `RawResponse` is nil; otherwise the file receives the bytes copied before
  any error and the stream's `readErr` is the copy's error.
The result carries the final response, the final state of the created file
(`none` when `os.Create` failed), and the returned error. -/
def Response.DownloadToFile (r : Response) (createErr : Option ErrStr) :
    Res (Response × Option File × Option ErrStr) :=
  match createErr with
  | some e => Res.ok (r, none, some e)
  | none =>
      match r.getInternalReader with
      | ByteSource.buffered b =>
          match r.RawResponse with
          | none => Res.panic nilDeref
          | some rr =>
              Res.ok ({ r with
                          internalByteBuffer := some { data := [] },
                          RawResponse := some { rr with Body := { rr.Body with closed := true } } },
                      some { data := b.data, closed := true },
                      none)
      | ByteSource.raw =>
          match r.RawResponse with
          | none => Res.panic nilDeref
          | some rr =>
              Res.ok ({ r with
                          RawResponse := some { rr with Body := { rr.Body with data := [], closed := true } } },
                      some { data := rr.Body.data, closed := true },
                      rr.Body.readErr)

/-- The outcome of a run of the external JSON/XML decoder over the body:
it decoded a value, it hit the end of the stream with nothing decoded
(`io.EOF`), or it failed with an error (malformed content). -/
inductive DecodeOutcome where
  | success
  | eofEmpty
  | fail (msg : String)
deriving DecidableEq

/-- The error the `Json`/`Xml` methods return for a decoder outcome, as the
source's `if err := dec.Decode(...); err != nil && err != io.EOF` filter
leaves it: failures verbatim, success and bare `io.EOF` become nil. -/
def DecodeOutcome.surfaced : DecodeOutcome → Option ErrStr
  | DecodeOutcome.fail m => some m
  | _ => none

/-- The type of the `charsetReader` argument of `Xml` (`XMLCharDecoder` is
declared elsewhere in the package); it only configures the decoder, whose
behaviour the `DecodeOutcome` abstracts, so it is otherwise unused. -/
def XMLCharDecoder : Type := ErrStr → List Nat → List Nat

/-- `(r *Response) Json(userStruct interface{}) error`: builds a decoder
over `getInternalReader`, `defer r.Close()`, decodes, and returns the
decoder's error filtered through `err != io.EOF`. The deferred close runs
on every exit and panics when `RawResponse` is nil (with a nil buffer the
decoder's read through `r.Read` already panics the same way). The decoder
itself is external; its outcome is the `outcome` parameter. -/
def Response.Json (r : Response) (outcome : DecodeOutcome) : Res (Response × Option ErrStr) :=
  match r.RawResponse with
  | none => Res.panic nilDeref
  | some rr =>
      Res.ok ({ r with RawResponse := some { rr with Body := { rr.Body with closed := true } } },
              outcome.surfaced)

/-- `(r *Response) Xml(userStruct interface{}, charsetReader XMLCharDecoder) error`:
identical control flow to `Json`, with `charsetReader` (when non-nil)
installed on the decoder before decoding. -/
def Response.Xml (r : Response) (outcome : DecodeOutcome)
    ( _charsetReader : Option XMLCharDecoder) : Res (Response × Option ErrStr) :=
  match r.RawResponse with
  | none => Res.panic nilDeref
  | some rr =>
      Res.ok ({ r with RawResponse := some { rr with Body := { rr.Body with closed := true } } },
              outcome.surfaced)

/-! ## Concrete fixtures used by closed theorems and witnesses -/

/-- A clean, already-delivered body with the given bytes. -/
def mkBody (bs : List Nat) : Body := { data := bs, readErr := none, closed := false }

/-- An exchange with the given status code and an empty clean body. -/
def exch (code : Int) : RawResp :=
  { StatusCode := code, Header := [], ContentLength := 0, Body := mkBody [] }

/-- The `Response` produced by `buildResponse` for a transport error `"boom"`. -/
def errResp : Response :=
  { Ok := false, Error := some "boom", RawResponse := none,
    StatusCode := 0, Header := [], internalByteBuffer := none }

/-- A raw exchange whose body delivers `[7, 8]` and then fails with
`"unexpected EOF"` before the declared 10 bytes arrive. -/
def failingRaw : RawResp :=
  { StatusCode := 200, Header := [], ContentLength := 10,
    Body := { data := [7, 8], readErr := some "unexpected EOF", closed := false } }

/-- A raw-backed response over `failingRaw`, no buffer yet. -/
def rMidFail : Response :=
  { Ok := true, Error := none, RawResponse := some failingRaw,
    StatusCode := 200, Header := [], internalByteBuffer := none }

/-- A healthy exchange delivering `"hi"` (`[104, 105]`) cleanly. -/
def goodRaw : RawResp :=
  { StatusCode := 200, Header := [("Content-Type", "text/plain")], ContentLength := 2,
    Body := mkBody [104, 105] }

/-- A raw-backed response over `goodRaw`, no buffer yet. -/
def rGood : Response :=
  { Ok := true, Error := none, RawResponse := some goodRaw,
    StatusCode := 200, Header := [("Content-Type", "text/plain")], internalByteBuffer := none }

/-! ## Claim theorems -/

/-- C1 (code bug, evaluated at the failing inputs): `buildResponse` computes
`Ok` with `resp.StatusCode <= 200 && resp.StatusCode < 300`, so status 201 —
inside [200,300), which the claim (and the source's own comment about "the
2xx range") says is a success — gets `Ok = false`, while status 100 —
outside the range — gets `Ok = true`; 200 itself gets `Ok = true`. -/
theorem buildResponse_ok_flag_violates_2xx_range :
    (buildResponse (some (exch 201)) none).map (fun r => r.Ok) = Res.ok false ∧
    (buildResponse (some (exch 100)) none).map (fun r => r.Ok) = Res.ok true ∧
    (buildResponse (some (exch 200)) none).map (fun r => r.Ok) = Res.ok true := by
  decide

/-- C5: when the transport error is non-nil, `buildResponse` produces a
response carrying only that error — success flag false, status code 0,
headers empty, no raw stream, no buffer — whatever `resp` was. -/
theorem buildResponse_error_carries_only_error (resp : Option RawResp) (e : ErrStr) :
    buildResponse resp (some e) =
      Res.ok { Ok := false, Error := some e, RawResponse := none,
               StatusCode := 0, Header := [], internalByteBuffer := none } := rfl

/-- C3 (code bug, evaluated at the failing input): `ClearInternalBuffer` on
a response whose internal buffer was never created is not a guarded no-op —
it calls `Reset` through a nil `*bytes.Buffer` and panics. Shown on a
freshly built response of a successful exchange and on a transport-error
response, neither of which has a buffer. -/
theorem clearInternalBuffer_nil_buffer_panics :
    (buildResponse (some (exch 200)) none).map Response.ClearInternalBuffer
      = Res.ok (Res.panic nilDeref) ∧
    (buildResponse none (some "boom")).map Response.ClearInternalBuffer
      = Res.ok (Res.panic nilDeref) := by
  decide

/-- C10: a response built from a transport error has a nil `RawResponse`,
and both pass-throughs `Read` and `Close` dereference it unconditionally,
so each panics instead of returning an error. -/
theorem read_close_panic_on_error_response (resp : Option RawResp) (e : ErrStr)
    (r : Response) (n : Nat)
    (h : buildResponse resp (some e) = Res.ok r) :
    r.Read n = Res.panic nilDeref ∧ r.Close = Res.panic nilDeref := by
  have hr : r.RawResponse = none := by
    cases h
    rfl
  constructor
  · show Response.Read r n = Res.panic nilDeref
    unfold Response.Read
    rw [hr]
  · show Response.Close r = Res.panic nilDeref
    unfold Response.Close
    rw [hr]

/-- Witness for C10 at the concrete transport-error response `errResp`. -/
theorem read_close_panic_on_error_response_witness :
    errResp.Read 4 = Res.panic nilDeref ∧ errResp.Close = Res.panic nilDeref :=
  read_close_panic_on_error_response none "boom" errResp 4 rfl

/-- C4: `respBytesBuffer` is idempotent. If a first call on a buffer-less
response succeeded (returned a nil error), it created the internal buffer,
and a second call returns success without touching the response at all —
the buffer contents stay identical and the raw stream is not read again
(the resulting state is exactly the input state). -/
theorem respBytesBuffer_idempotent (r r1 : Response)
    (hb : r.internalByteBuffer = none)
    (h : r.respBytesBuffer = Res.ok (r1, none)) :
    r1.internalByteBuffer.isSome = true ∧ r1.respBytesBuffer = Res.ok (r1, none) := by
  cases hr : r.RawResponse with
  | none => simp [Response.respBytesBuffer, hb, hr] at h
  | some rr =>
      by_cases hcl : rr.ContentLength < 0
      · simp [Response.respBytesBuffer, hb, hr, hcl] at h
      · simp only [Response.respBytesBuffer, hb, hr, if_neg hcl, Res.ok.injEq,
          Prod.mk.injEq] at h
        obtain ⟨h2, h3⟩ := h
        subst h2
        exact ⟨rfl, rfl⟩

/-- Witness for C4: on the concrete raw-backed response `rGood`, the first
buffering call succeeds, and a second call is a successful no-op. -/
theorem respBytesBuffer_idempotent_witness :
    ((rGood.respBytesBuffer.map (fun p => p.1)).map
        (fun r1 => r1.internalByteBuffer.isSome)) = Res.ok true ∧
    ((rGood.respBytesBuffer.map (fun p => p.1)).map
        (fun r1 => decide (r1.respBytesBuffer = Res.ok (r1, none)))) = Res.ok true := by
  have h := respBytesBuffer_idempotent rGood
    { rGood with
        internalByteBuffer := some { data := goodRaw.Body.data },
        RawResponse := some { goodRaw with Body := { goodRaw.Body with data := [], closed := true } } }
    (by decide) (by decide)
  refine ⟨?_, ?_⟩
  · exact congrArg Res.ok h.1
  · exact congrArg Res.ok (by simpa using h.2)

/-- C9: on a buffer-less response whose exchange declared a negative content
length (unknown length, e.g. chunked), `respBytesBuffer` reaches
`Grow(int(ContentLength))` with a negative count and panics — and so do
`Bytes` and `String`, which call it. -/
theorem respBytesBuffer_negative_content_length_panics (r : Response) (rr : RawResp)
    (hb : r.internalByteBuffer = none) (hr : r.RawResponse = some rr)
    (hcl : rr.ContentLength < 0) :
    r.respBytesBuffer = Res.panic "bytes.Buffer.Grow: negative count" ∧
    r.Bytes = Res.panic "bytes.Buffer.Grow: negative count" ∧
    r.String = Res.panic "bytes.Buffer.Grow: negative count" := by
  have h1 : r.respBytesBuffer = Res.panic "bytes.Buffer.Grow: negative count" := by
    simp [Response.respBytesBuffer, hb, hr, hcl]
  refine ⟨h1, ?_, ?_⟩
  · simp [Response.Bytes, h1]
  · simp [Response.String, h1]

/-- A chunked-transfer-style exchange: `ContentLength = -1`, clean body. -/
def chunkedRaw : RawResp :=
  { StatusCode := 200, Header := [("Transfer-Encoding", "chunked")], ContentLength := -1,
    Body := mkBody [104, 105] }

/-- A raw-backed response over `chunkedRaw`, no buffer yet. -/
def rChunked : Response :=
  { Ok := true, Error := none, RawResponse := some chunkedRaw,
    StatusCode := 200, Header := [("Transfer-Encoding", "chunked")], internalByteBuffer := none }

/-- Witness for C9 at the concrete chunked response `rChunked`. -/
theorem respBytesBuffer_negative_content_length_panics_witness :
    rChunked.respBytesBuffer = Res.panic "bytes.Buffer.Grow: negative count" ∧
    rChunked.Bytes = Res.panic "bytes.Buffer.Grow: negative count" ∧
    rChunked.String = Res.panic "bytes.Buffer.Grow: negative count" :=
  respBytesBuffer_negative_content_length_panics rChunked chunkedRaw rfl rfl (by decide)

/-- C2 counterexample: on `rMidFail` — raw-backed, no buffer, body fails
with `"unexpected EOF"` after delivering `[7, 8]` of a declared 10 bytes —
`respBytesBuffer` does return the error, but the internal buffer is NOT
left nil: it is left holding the partial bytes `[7, 8]`, contradicting the
claim that a mid-read failure discards the partial bytes and leaves the
buffer nil. -/
theorem respBytesBuffer_midread_keeps_partial_counterexample :
    rMidFail.respBytesBuffer.map (fun p => (p.1.internalByteBuffer, p.2))
      = Res.ok (some { data := [7, 8] }, some "unexpected EOF") ∧
    (some { data := [7, 8] } : Option Buffer) ≠ none := by
  decide

/-- C2 amended: when buffering a raw-backed response hits an I/O failure
mid-read, the error IS returned to the caller, but the partial bytes
already captured are NOT discarded — the internal buffer is left non-nil
holding them, so a subsequent `respBytesBuffer` call silently returns
success over the partial data. -/
theorem respBytesBuffer_midread_failure_behaviour (r : Response) (rr : RawResp) (e : ErrStr)
    (hb : r.internalByteBuffer = none) (hr : r.RawResponse = some rr)
    (hcl : 0 ≤ rr.ContentLength) (he : rr.Body.readErr = some e) :
    ∃ r1, r.respBytesBuffer = Res.ok (r1, some e) ∧
      r1.internalByteBuffer = some { data := rr.Body.data } ∧
      r1.respBytesBuffer = Res.ok (r1, none) := by
  refine ⟨{ r with
      internalByteBuffer := some { data := rr.Body.data },
      RawResponse := some { rr with Body := { rr.Body with data := [], closed := true } } },
    ?_, rfl, ?_⟩
  · simp [Response.respBytesBuffer, hb, hr, not_lt.mpr hcl, he]
  · rfl

/-- Witness for C2's amended theorem at the concrete response `rMidFail`. -/
theorem respBytesBuffer_midread_failure_behaviour_witness :
    ∃ r1, rMidFail.respBytesBuffer = Res.ok (r1, some "unexpected EOF") ∧
      r1.internalByteBuffer = some { data := [7, 8] } ∧
      r1.respBytesBuffer = Res.ok (r1, none) :=
  respBytesBuffer_midread_failure_behaviour rMidFail failingRaw "unexpected EOF"
    rfl rfl (by decide) rfl

/-- The state of `rMidFail` after its first buffering attempt: the partial
bytes sit in the buffer, the body is drained and closed. -/
def rMidFailAfter : Response :=
  { Ok := true, Error := none,
    RawResponse := some { failingRaw with Body := { failingRaw.Body with data := [], closed := true } },
    StatusCode := 200, Header := [], internalByteBuffer := some { data := [7, 8] } }

/-- The state of `rGood` after a successful buffering call. -/
def rGoodAfter : Response :=
  { rGood with
    RawResponse := some { goodRaw with Body := { goodRaw.Body with data := [], closed := true } },
    internalByteBuffer := some { data := [104, 105] } }

/-- C6: `Bytes` and `String` call `respBytesBuffer` and swallow its error:
when buffering fails they return nil bytes / the empty string instead of
propagating the error; when buffering succeeds they return the buffer's
contents as bytes and text respectively. -/
theorem bytes_string_swallow_buffering_error (r r1 : Response) :
    (∀ e, r.respBytesBuffer = Res.ok (r1, some e) →
        r.Bytes = Res.ok (r1, none) ∧ r.String = Res.ok (r1, [])) ∧
    (∀ b, r.respBytesBuffer = Res.ok (r1, none) → r1.internalByteBuffer = some b →
        r.Bytes = Res.ok (r1, some b.data) ∧ r.String = Res.ok (r1, b.data)) := by
  constructor
  · intro e h
    constructor <;> simp [Response.Bytes, Response.String, h]
  · intro b h hbuf
    constructor <;> simp [Response.Bytes, Response.String, h, hbuf]

/-- Witness for C6: on `rMidFail` buffering fails with `"unexpected EOF"`
and `Bytes`/`String` return nil/empty; on `rGood` buffering succeeds and
they return the body `"hi"` (`[104, 105]`). -/
theorem bytes_string_swallow_buffering_error_witness :
    (rMidFail.Bytes = Res.ok (rMidFailAfter, none) ∧
      rMidFail.String = Res.ok (rMidFailAfter, [])) ∧
    (rGood.Bytes = Res.ok (rGoodAfter, some [104, 105]) ∧
      rGood.String = Res.ok (rGoodAfter, [104, 105])) := by
  refine ⟨(bytes_string_swallow_buffering_error rMidFail rMidFailAfter).1
      "unexpected EOF" (by decide), ?_⟩
  have h := (bytes_string_swallow_buffering_error rGood rGoodAfter).2 { data := [104, 105] }
    (by decide) (by decide)
  exact ⟨by rw [h.1], by rw [h.2]⟩

/-- C7: `Json` and `Xml` close the raw resource on completion of every call
(the resulting body is marked closed for every decoder outcome), treat
end-of-stream with zero bytes decoded (`io.EOF`) as success — `surfaced`
maps `eofEmpty`, like `success`, to a nil error — and surface any other
decoder error verbatim (`fail m` yields `some m`). -/
theorem json_xml_close_and_filter_eof (r : Response) (rr : RawResp)
    (outcome : DecodeOutcome) (cd : Option XMLCharDecoder)
    (hr : r.RawResponse = some rr) :
    r.Json outcome =
      Res.ok ({ r with RawResponse := some { rr with Body := { rr.Body with closed := true } } },
              outcome.surfaced) ∧
    r.Xml outcome cd =
      Res.ok ({ r with RawResponse := some { rr with Body := { rr.Body with closed := true } } },
              outcome.surfaced) ∧
    DecodeOutcome.surfaced DecodeOutcome.eofEmpty = none ∧
    DecodeOutcome.surfaced DecodeOutcome.success = none ∧
    (∀ m, DecodeOutcome.surfaced (DecodeOutcome.fail m) = some m) := by
  refine ⟨?_, ?_, rfl, rfl, fun m => rfl⟩ <;> simp [Response.Json, Response.Xml, hr]

/-- `rGood` with its body closed (and still undelivered): the response state
`Json`/`Xml` leave behind. -/
def rGoodClosed : Response :=
  { rGood with RawResponse := some { goodRaw with Body := { goodRaw.Body with closed := true } } }

/-- Witness for C7 on `rGood`: a bare end-of-stream decode is success and a
malformed-content failure is surfaced verbatim; both close the body. -/
theorem json_xml_close_and_filter_eof_witness :
    rGood.Json DecodeOutcome.eofEmpty = Res.ok (rGoodClosed, none) ∧
    rGood.Xml (DecodeOutcome.fail "XML syntax error on line 1") none
      = Res.ok (rGoodClosed, some "XML syntax error on line 1") := by
  constructor
  · have h := (json_xml_close_and_filter_eof rGood goodRaw DecodeOutcome.eofEmpty none rfl).1
    rw [h]; decide
  · have h := (json_xml_close_and_filter_eof rGood goodRaw
      (DecodeOutcome.fail "XML syntax error on line 1") none rfl).2.1
    rw [h]; decide

/-- A response over `goodRaw` that already holds an internal buffer `[7]`. -/
def preBuffered : Response :=
  { Ok := true, Error := none, RawResponse := some goodRaw,
    StatusCode := 200, Header := [("Content-Type", "text/plain")],
    internalByteBuffer := some { data := [7] } }

/-- C8 counterexample: `DownloadToFile` does modify the internal buffer when
one exists — the buffer is the selected source and `io.Copy` consumes it.
On `preBuffered`, whose buffer holds `[7]`, the download succeeds and the
buffer is left drained (`[]`), not identical to its previous contents. -/
theorem downloadToFile_drains_buffer_counterexample :
    (preBuffered.DownloadToFile none).map (fun t => t.1.internalByteBuffer)
      = Res.ok (some { data := [] }) ∧
    preBuffered.internalByteBuffer = some { data := [7] } ∧
    (some { data := [] } : Option Buffer) ≠ some { data := [7] } := by
  decide

/-- C8 amended: `DownloadToFile` never populates an internal buffer (a
buffer-less response stays buffer-less) and streams from the
internal-reader-selector — but when a buffer exists it is the source and
its contents are consumed (left empty). If `os.Create` fails, that error
is returned and nothing else happens. After the file is created, on every
exit path — clean end of stream (success, nil error returned) or mid-copy
I/O failure (the stream's error returned) — both the source stream and the
destination file end up closed, and the file holds the bytes copied. -/
theorem downloadToFile_streams_and_closes (r : Response) (rr : RawResp) :
    (∀ e, r.DownloadToFile (some e) = Res.ok (r, none, some e)) ∧
    (r.internalByteBuffer = none → r.RawResponse = some rr →
        r.DownloadToFile none =
          Res.ok ({ r with RawResponse := some { rr with Body := { rr.Body with data := [], closed := true } } },
                  some { data := rr.Body.data, closed := true },
                  rr.Body.readErr)) ∧
    (∀ b, r.internalByteBuffer = some b → r.RawResponse = some rr →
        r.DownloadToFile none =
          Res.ok ({ r with internalByteBuffer := some { data := [] }, RawResponse := some { rr with Body := { rr.Body with closed := true } } },
                  some { data := b.data, closed := true },
                  none)) := by
  refine ⟨fun e => rfl, ?_, ?_⟩
  · intro hb hr
    simp [Response.DownloadToFile, Response.getInternalReader, hb, hr]
  · intro b hb hr
    simp [Response.DownloadToFile, Response.getInternalReader, hb, hr]

/-- The state of `rGood` after a raw-path download: body drained and closed,
still no buffer. -/
def rGoodDrained : Response :=
  { rGood with
    RawResponse := some { goodRaw with Body := { goodRaw.Body with data := [], closed := true } } }

/-- The state of `preBuffered` after a buffered-path download: buffer
drained, body closed with its bytes untouched. -/
def preBufferedAfter : Response :=
  { preBuffered with
    RawResponse := some { goodRaw with Body := { goodRaw.Body with closed := true } },
    internalByteBuffer := some { data := [] } }

/-- Witness for C8's amended theorem: a failed create on `rGood`, a raw-path
download on `rGood`, and a buffered-path download on `preBuffered`. -/
theorem downloadToFile_streams_and_closes_witness :
    rGood.DownloadToFile (some "permission denied")
      = Res.ok (rGood, none, some "permission denied") ∧
    rGood.DownloadToFile none
      = Res.ok (rGoodDrained, some { data := [104, 105], closed := true }, none) ∧
    preBuffered.DownloadToFile none
      = Res.ok (preBufferedAfter, some { data := [7], closed := true }, none) := by
  refine ⟨(downloadToFile_streams_and_closes rGood goodRaw).1 "permission denied", ?_, ?_⟩
  · have h := (downloadToFile_streams_and_closes rGood goodRaw).2.1 rfl rfl
    rw [h]; decide
  · have h := (downloadToFile_streams_and_closes preBuffered goodRaw).2.2
      { data := [7] } rfl rfl
    rw [h]; decide

end GRequests
